import Mathlib

/-!
Shallow embedding of `src/views/debugView.ts` (debug session state and
certificate trust reconciliation) together with the Trust Evaluator,
Session Reconciler and Lifecycle Controller abstractions of the spec.

External collaborators (locale lookup, connection object, remote reads)
are modelled as deterministic parameters or record fields, following the
spec's external-interface contracts; every branch of the core logic is
translated from the TypeScript source.
-/

namespace DebugView

/-- JavaScript truthiness test on an optional string, as used by
`!certificates.remoteCertificate` and the other negations in the source:
an optional string is falsy exactly when it is `undefined` or the empty
string. -/
def truthy : Option String → Bool
  | none => false
  | some s => !s.isEmpty

/-- The locale lookup `t(key)` (from `../locale`) is an external pure
table; it is modelled as the key itself. -/
def t (key : String) : String := key

/-- The locale lookup `t(key, a, b)` with two substitution arguments,
modelled as a deterministic injective combination of its arguments. -/
def t2 (key a b : String) : String := key ++ "|" ++ a ++ "|" ++ b

/-- The `Certificates` record type of the source (spec: CertificateSet):
`secureDebug: boolean`, optional `remoteCertificate` and
`localCertificate` string identities. -/
structure Certificates where
  secureDebug : Bool
  remoteCertificate : Option String := none
  localCertificate : Option String := none
deriving DecidableEq

/-- The spec's TrustOutcome classification. -/
inductive TrustOutcome where
  | Ok
  | NoRemoteCertificate
  | NoLocalCertificate
  | CertificateMismatch
deriving DecidableEq

/-- Trust Evaluator: the certificate classification performed by the
`DebugJobItem` constructor (debugView.ts lines 143-165), read at the
TrustOutcome level. Branch structure and tests are those of the source:
`!certificates.remoteCertificate`, then `certificates.secureDebug`, then
`!certificates.localCertificate`, then
`certificates.remoteCertificate !== certificates.localCertificate`. -/
def classify (c : Certificates) : TrustOutcome :=
  if !truthy c.remoteCertificate then
    .NoRemoteCertificate
  else if c.secureDebug then
    if !truthy c.localCertificate then
      .NoLocalCertificate
    else if c.remoteCertificate != c.localCertificate then
      .CertificateMismatch
    else
      .Ok
  else
    .Ok

/-- The `CertificateIssue` record of the source. -/
structure CertificateIssue where
  label : String
  detail : Option String := none
  context : String
deriving DecidableEq

/-- The `DebugJob` value returned by the Job Status Reader
(spec data model: name and ordered port list). -/
structure DebugJob where
  name : String
  ports : List Nat
deriving DecidableEq

/-- The two node kinds of `DebugJobItem.type`. -/
inductive JobType where
  | server
  | service
deriving DecidableEq

/-- String form of a `JobType`, as interpolated into context values. -/
def JobType.str : JobType → String
  | .server => "server"
  | .service => "service"

/-- Tree collapse state of a node. -/
inductive CollapsibleState where
  | Expanded
  | None
deriving DecidableEq

/-- The connection configuration object: `config?.debugIsSecure`. -/
structure Config where
  debugIsSecure : Option Bool := none
deriving DecidableEq

/-- The connection collaborator: its optional configuration and the value
of `getRemoteCertificateDirectory(connection)`. -/
structure Connection where
  config : Option Config := none
  remoteCertificateDirectory : String := ""
deriving DecidableEq

/-- The `problem` computation of the `DebugJobItem` constructor
(debugView.ts lines 144-165), for a present `Certificates` value. -/
def mkProblem (conn : Connection) (c : Certificates) : Option CertificateIssue :=
  if !truthy c.remoteCertificate then
    some { context := "noremote",
           label := t "remote.certificate.not.found",
           detail := some (t2 "remote.certificate.not.found.detail"
             "debug_service.pfx" conn.remoteCertificateDirectory) }
  else if c.secureDebug then
    if !truthy c.localCertificate then
      some { context := "nolocal", label := t "local.certificate.not.found" }
    else if c.remoteCertificate != c.localCertificate then
      some { context := "dontmatch", label := t "local.dont.match.remote" }
    else
      none
  else
    none

/-- The fields of a constructed `DebugJobItem` node (spec: SessionNode).
`cantRun` and `running` record the constructor's local bindings of the
same names, surfaced because the spec's SessionNode model exposes them. -/
structure DebugJobItem where
  type : JobType
  label : String
  debugJob : Option DebugJob
  problem : Option CertificateIssue
  cantRun : Bool
  running : Bool
  state : CollapsibleState
  icon : String
  color : String
  contextValue : String
  description : String
  tooltip : Option String
deriving DecidableEq

/-- The `DebugJobItem` constructor (debugView.ts lines 139-182).
`cantRun = certificates && !certificates.remoteCertificate`;
`running = !cantRun && debugJob !== undefined`; the problem, icon,
color, collapse state, context value, description and tooltip are
computed exactly as in the source. -/
def mkDebugJobItem (conn : Connection) (type : JobType) (label : String)
    (debugJob : Option DebugJob) (certificates : Option Certificates := none) :
    DebugJobItem :=
  let cantRun : Bool := match certificates with
    | none => false
    | some c => !truthy c.remoteCertificate
  let running : Bool := !cantRun && debugJob.isSome
  let problem : Option CertificateIssue := match certificates with
    | none => none
    | some c => mkProblem conn c
  { type := type
    label := label
    debugJob := debugJob
    problem := problem
    cantRun := cantRun
    running := running
    state := if problem.isSome then .Expanded else .None
    icon := if problem.isSome then "warning" else if running then "pass" else "error"
    color := if problem.isSome then
        (if cantRun then "testing.iconFailed" else "testing.iconQueued")
      else if running then "testing.iconPassed" else "testing.iconFailed"
    contextValue := "debugJob_" ++ type.str ++
      (if cantRun then "" else "_" ++ (if running then "on" else "off"))
    description := if running then ((debugJob.map DebugJob.name).getD "") else t "offline"
    tooltip := if running then none else some "" }

/-- Session Reconciler reading: a node is blocked exactly when it carries
a certificate problem (warning icon, expanded state, issue child). -/
def DebugJobItem.blocked (i : DebugJobItem) : Bool := i.problem.isSome

/-- One refresh cycle's collaborator reads (Certificate Inspector and Job
Status Reader results): `remoteServerCertificateExists`,
`readRemoteCertificate`, `localClientCertExists`, the local certificate
file contents, `getDebugServerJob` and `getDebugServiceJob`. -/
structure RemoteState where
  remoteServerCertificateExists : Bool
  remoteCertificate : String
  localClientCertExists : Bool
  localCertificate : String
  serverJob : Option DebugJob
  serviceJob : Option DebugJob
deriving DecidableEq

/-- The `certificates` construction of `DebugBrowser.getRootItems`
(debugView.ts lines 76-85): the remote certificate is read only when it
exists, and the local certificate file is read only when secure debug is
on and the local file exists. -/
def buildCertificates (conn : Connection) (s : RemoteState) : Certificates :=
  let secureDebug := (conn.config.bind Config.debugIsSecure).getD false
  if s.remoteServerCertificateExists then
    if secureDebug && s.localClientCertExists then
      { secureDebug := secureDebug,
        remoteCertificate := some s.remoteCertificate,
        localCertificate := some s.localCertificate }
    else
      { secureDebug := secureDebug,
        remoteCertificate := some s.remoteCertificate }
  else
    { secureDebug := secureDebug }

/-- `DebugBrowser.getRootItems` (debugView.ts lines 73-106): with no
connection, no nodes; otherwise the server node (no certificates) and
the service node (with the constructed certificates). -/
def getRootItems (conn : Option Connection) (s : RemoteState) : List DebugJobItem :=
  match conn with
  | none => []
  | some connection =>
    let certificates := buildCertificates connection s
    [ mkDebugJobItem connection .server (t "debug.server") s.serverJob,
      mkDebugJobItem connection .service (t "debug.service") s.serviceJob
        (some certificates) ]

/-- A DB2 result row: key/value pairs, where a value may be null. -/
abbrev DB2Row := List (String × Option String)

/-- The `jobToMarkDown` helper of `resolveTreeItem` (debugView.ts line
114): a string passes through; a row is rendered as a bullet list of its
non-null entries. -/
def jobToMarkDown : Sum String DB2Row → String
  | .inl s => s
  | .inr row => String.intercalate "\n"
      ((row.filter (fun kv => kv.2.isSome)).map
        (fun kv => "- " ++ t kv.1 ++ ": " ++ kv.2.getD ""))

/-- The base tooltip built by `resolveTreeItem` before enrichment
(debugView.ts line 111): the listening-ports line. -/
def baseTooltip (job : DebugJob) : String :=
  t (if job.ports.length == 1 then "listening.on.port" else "listening.on.ports")
    ++ " " ++ String.intercalate ", " (job.ports.map toString) ++ "\n\n"

/-- `DebugBrowser.resolveTreeItem` (debugView.ts lines 108-127) as a
function of the element and the enrichment query results: `activeJob` is
the `readActiveJob` result, `jvmJob` the `readJVMInfo` result. Returns
the updated element, or `none` when the guard fails (the source returns
`undefined` there). -/
def resolveTreeItem (contentPresent : Bool) (element : DebugJobItem)
    (activeJob : Option (Sum String DB2Row)) (jvmJob : Option DB2Row) :
    Option DebugJobItem :=
  match contentPresent, element.tooltip, element.debugJob with
  | true, none, some job =>
    let tip := baseTooltip job
    let tip := match activeJob with
      | some aj =>
        let tip := tip ++ jobToMarkDown aj
        if element.type == .service then
          let tip := tip ++ "\n\n"
          match jvmJob with
          | some j => tip ++ jobToMarkDown (.inr j)
          | none => tip
        else tip
      | none => tip
    some { element with tooltip := some tip }
  | _, _, _ => none

/-- The restart command composition (debugView.ts line 53):
`await item.start() && item.stop()` over abstract stateful start and
stop operations; by JavaScript short-circuiting, `stop` runs only when
`start` returned true. -/
def restartCommand {σ : Type} (start stop : σ → Bool × σ) (s : σ) : Bool × σ :=
  let r := start s
  if r.1 then stop r.2 else r

/-- Observable events of a lifecycle action. -/
inductive LifecycleEvent where
  | remoteAction (type : JobType) (verb : String) (ok : Bool)
  | refreshNode (type : JobType)
deriving DecidableEq

/-- Modelled from the spec: the bodies of `startServer`, `stopServer`,
`startService` and `stopService` (src/api/debug/server.ts) are not under
src/; per the spec's Lifecycle Controller contract each start action
performs the remote action and then, whether it succeeded or failed,
triggers a reconciliation refresh of the affected node. `ok` is the
remote action's result. -/
def startAction (ty : JobType) (ok : Bool) : Bool × List LifecycleEvent :=
  (ok, [.remoteAction ty "start" ok, .refreshNode ty])

/-- Modelled from the spec: the stop counterpart of `startAction`; the
remote stop action completes and a reconciliation refresh of the
affected node is triggered regardless of the result. -/
def stopAction (ty : JobType) (ok : Bool) : Bool × List LifecycleEvent :=
  (ok, [.remoteAction ty "stop" ok, .refreshNode ty])

/-- The restart command (debugView.ts line 53) over the modelled
lifecycle actions: start, then stop only when start succeeded,
concatenating the observable event traces. -/
def restartActionTrace (ty : JobType) (startOk stopOk : Bool) :
    Bool × List LifecycleEvent :=
  let r := startAction ty startOk
  if r.1 then
    let p := stopAction ty stopOk
    (p.1, r.2 ++ p.2)
  else r

end DebugView

namespace DebugView

/-- C1: for every CertificateSet whose remoteCertificate is absent, the
trust classification is NoRemoteCertificate, regardless of
secureDebugRequired and localCertificate, and that outcome marks the
service node as not runnable (`cantRun`). -/
theorem noRemoteCertificate_dominates (c : Certificates) (conn : Connection)
    (label : String) (job : Option DebugJob)
    (h : c.remoteCertificate = none) :
    classify c = TrustOutcome.NoRemoteCertificate ∧
    (mkDebugJobItem conn JobType.service label job (some c)).cantRun = true := by
  constructor
  · simp [classify, h, truthy]
  · simp [mkDebugJobItem, h, truthy]

theorem noRemoteCertificate_dominates_witness :
    classify { secureDebug := true, remoteCertificate := none,
               localCertificate := some "x" } = TrustOutcome.NoRemoteCertificate ∧
    (mkDebugJobItem {} JobType.service "svc" (some { name := "J", ports := [1] })
      (some { secureDebug := true, remoteCertificate := none,
              localCertificate := some "x" })).cantRun = true :=
  noRemoteCertificate_dominates _ _ _ _ rfl

/-- C2: for every session node built from a CertificateSet, running is
true iff a DebugJob is present and the trust outcome is not
NoRemoteCertificate, and blocked is true iff the trust outcome is not
Ok (so a present job with an absent remote certificate yields
running = false, blocked = true as an instance). -/
theorem sessionNode_running_blocked (conn : Connection) (ty : JobType)
    (label : String) (job : Option DebugJob) (c : Certificates) :
    (mkDebugJobItem conn ty label job (some c)).running
        = (job.isSome && !(classify c == TrustOutcome.NoRemoteCertificate)) ∧
    DebugJobItem.blocked (mkDebugJobItem conn ty label job (some c))
        = (classify c != TrustOutcome.Ok) := by
  obtain ⟨sd, r, l⟩ := c
  simp only [mkDebugJobItem, DebugJobItem.blocked, mkProblem, classify]
  cases hr : truthy r <;> cases sd <;>
    simp_all <;>
    cases hl : truthy l <;>
    simp_all <;>
    cases hrl : r == l <;>
    simp_all

end DebugView

namespace DebugView

/-- C3: for every CertificateSet whose remoteCertificate is present
(truthy, following the absence representation of an explicit
empty-or-missing optional value), classification follows the exact
precedence: secureDebugRequired false gives Ok regardless of the local
certificate; otherwise an absent local certificate gives
NoLocalCertificate; otherwise unequal identities give
CertificateMismatch; otherwise Ok. Exactly one outcome per input holds
because `classify` is a total function. -/
theorem classify_precedence (c : Certificates)
    (h : truthy c.remoteCertificate = true) :
    (c.secureDebug = false → classify c = TrustOutcome.Ok) ∧
    (c.secureDebug = true → truthy c.localCertificate = false →
      classify c = TrustOutcome.NoLocalCertificate) ∧
    (c.secureDebug = true → truthy c.localCertificate = true →
      c.remoteCertificate ≠ c.localCertificate →
      classify c = TrustOutcome.CertificateMismatch) ∧
    (c.secureDebug = true → truthy c.localCertificate = true →
      c.remoteCertificate = c.localCertificate →
      classify c = TrustOutcome.Ok) := by
  obtain ⟨sd, r, l⟩ := c
  simp only [classify] at *
  cases sd <;> simp_all <;> intro hl <;>
    cases hrl : r == l <;> simp_all

theorem classify_precedence_witness :
    classify { secureDebug := true, remoteCertificate := some "X",
               localCertificate := some "Y" } = TrustOutcome.CertificateMismatch :=
  (classify_precedence
    { secureDebug := true, remoteCertificate := some "X",
      localCertificate := some "Y" } (by decide)).2.2.1 rfl (by decide) (by decide)

/-- C4: the restart composition runs start first and runs stop only when
start returned true; whenever start returns false, stop is never
invoked (the resulting state is exactly the post-start state). -/
theorem restart_skips_stop_on_failed_start {σ : Type} (start stop : σ → Bool × σ)
    (s : σ) :
    ((start s).1 = false → restartCommand start stop s = start s) ∧
    ((start s).1 = true → restartCommand start stop s = stop (start s).2) := by
  constructor <;> intro h <;> simp [restartCommand, h]

theorem restart_skips_stop_on_failed_start_witness :
    restartCommand (fun n : Nat => (false, n + 1)) (fun n => (true, n + 100)) 0
      = (false, 1) :=
  (restart_skips_stop_on_failed_start (fun n : Nat => (false, n + 1))
    (fun n => (true, n + 100)) 0).1 rfl

/-- C5: after every start, stop or restart action completes, whatever the
outcome of the remote actions, the last observable event is a
reconciliation refresh of the affected node. -/
theorem lifecycle_actions_end_with_refresh (ty : JobType) (ok1 ok2 : Bool) :
    (startAction ty ok1).2.getLast? = some (LifecycleEvent.refreshNode ty) ∧
    (stopAction ty ok1).2.getLast? = some (LifecycleEvent.refreshNode ty) ∧
    (restartActionTrace ty ok1 ok2).2.getLast?
      = some (LifecycleEvent.refreshNode ty) := by
  cases ok1 <;> cases ok2 <;>
    simp [startAction, stopAction, restartActionTrace]

end DebugView

namespace DebugView

/-- C6: for every detail request on a node with a present job and no
tooltip yet, when the enrichment query returns nothing the resolution
still returns the node, with exactly its base (listening-ports)
tooltip; no error is possible since resolution is a total function. -/
theorem enrichment_absent_yields_base_tooltip (el : DebugJobItem) (job : DebugJob)
    (hjob : el.debugJob = some job) (htip : el.tooltip = none)
    (jvm : Option DB2Row) :
    resolveTreeItem true el none jvm
      = some { el with tooltip := some (baseTooltip job) } := by
  simp only [resolveTreeItem, hjob, htip]

theorem enrichment_absent_yields_base_tooltip_witness :
    resolveTreeItem true
        (mkDebugJobItem {} JobType.service "svc"
          (some { name := "J", ports := [8005] }) none) none none
      = some { (mkDebugJobItem {} JobType.service "svc"
          (some { name := "J", ports := [8005] }) none) with
          tooltip := some (baseTooltip { name := "J", ports := [8005] }) } :=
  enrichment_absent_yields_base_tooltip _ { name := "J", ports := [8005] }
    rfl rfl none

/-- C7: a refresh is a deterministic function of the observed remote
state: two refreshes on the same connection whose collaborator reads
(certificate existence and contents, job queries, configuration flag)
agree field by field produce structurally equal node lists. -/
theorem refresh_deterministic (conn : Option Connection) (s1 s2 : RemoteState)
    (h1 : s1.remoteServerCertificateExists = s2.remoteServerCertificateExists)
    (h2 : s1.remoteCertificate = s2.remoteCertificate)
    (h3 : s1.localClientCertExists = s2.localClientCertExists)
    (h4 : s1.localCertificate = s2.localCertificate)
    (h5 : s1.serverJob = s2.serverJob)
    (h6 : s1.serviceJob = s2.serviceJob) :
    getRootItems conn s1 = getRootItems conn s2 := by
  have hs : s1 = s2 := by
    obtain ⟨a1, a2, a3, a4, a5, a6⟩ := s1
    obtain ⟨b1, b2, b3, b4, b5, b6⟩ := s2
    simp_all
  rw [hs]

theorem refresh_deterministic_witness :
    getRootItems (some { config := some { debugIsSecure := some true } })
        { remoteServerCertificateExists := true, remoteCertificate := "r",
          localClientCertExists := true, localCertificate := "r",
          serverJob := none, serviceJob := some { name := "J", ports := [1] } }
      = getRootItems (some { config := some { debugIsSecure := some true } })
        { remoteServerCertificateExists := true, remoteCertificate := "r",
          localClientCertExists := true, localCertificate := "r",
          serverJob := none, serviceJob := some { name := "J", ports := [1] } } :=
  refresh_deterministic _ _ _ rfl rfl rfl rfl rfl rfl

/-- C8: on every refresh with a connection, the first node is the server
node, built without a CertificateSet; for every certificate state it
carries no problem, is never blocked, and its running flag equals the
presence of the server job. -/
theorem server_node_certificate_free (conn : Connection) (s : RemoteState) :
    (getRootItems (some conn) s).head?
        = some (mkDebugJobItem conn JobType.server (t "debug.server")
            s.serverJob none) ∧
    (mkDebugJobItem conn JobType.server (t "debug.server")
        s.serverJob none).problem = none ∧
    DebugJobItem.blocked (mkDebugJobItem conn JobType.server (t "debug.server")
        s.serverJob none) = false ∧
    (mkDebugJobItem conn JobType.server (t "debug.server")
        s.serverJob none).running = s.serverJob.isSome := by
  refine ⟨rfl, rfl, rfl, ?_⟩
  simp [mkDebugJobItem]

end DebugView

namespace DebugView

/-- C9: when the remote certificate file exists but its read identity is
the empty string, the service classification is NoRemoteCertificate,
the service node cannot run and is not running, and the whole refresh
result is structurally equal to the one obtained when the remote
certificate is absent: presence-with-empty-identity and absence are
indistinguishable. -/
theorem empty_remote_certificate_treated_as_absent (conn : Connection)
    (s : RemoteState)
    (hex : s.remoteServerCertificateExists = true)
    (hempty : s.remoteCertificate = "") :
    classify (buildCertificates conn s) = TrustOutcome.NoRemoteCertificate ∧
    (mkDebugJobItem conn JobType.service (t "debug.service") s.serviceJob
        (some (buildCertificates conn s))).cantRun = true ∧
    (mkDebugJobItem conn JobType.service (t "debug.service") s.serviceJob
        (some (buildCertificates conn s))).running = false ∧
    getRootItems (some conn) s
      = getRootItems (some conn) { s with remoteServerCertificateExists := false } := by
  have hcert : (buildCertificates conn s).remoteCertificate = some "" := by
    unfold buildCertificates
    rw [hex, hempty]
    by_cases hb : (((conn.config.bind Config.debugIsSecure).getD false)
        && s.localClientCertExists) = true <;>
      simp [hb]
  have htr : truthy (buildCertificates conn s).remoteCertificate = false := by
    rw [hcert]; rfl
  have htr' : truthy (buildCertificates conn
      { s with remoteServerCertificateExists := false }).remoteCertificate
        = false := rfl
  refine ⟨?_, ?_, ?_, ?_⟩
  · simp [classify, htr]
  · simp [mkDebugJobItem, htr]
  · simp [mkDebugJobItem, htr]
  · have hsvc : mkDebugJobItem conn JobType.service (t "debug.service") s.serviceJob
        (some (buildCertificates conn s))
      = mkDebugJobItem conn JobType.service (t "debug.service")
          ({ s with remoteServerCertificateExists := false }).serviceJob
          (some (buildCertificates conn
            { s with remoteServerCertificateExists := false })) := by
      simp [mkDebugJobItem, mkProblem, htr, htr']
    simp only [getRootItems]
    rw [hsvc]

theorem empty_remote_certificate_treated_as_absent_witness :
    classify (buildCertificates { config := some { debugIsSecure := some true } }
        { remoteServerCertificateExists := true, remoteCertificate := "",
          localClientCertExists := true, localCertificate := "l",
          serverJob := none, serviceJob := some { name := "J", ports := [1] } })
      = TrustOutcome.NoRemoteCertificate ∧
    (mkDebugJobItem { config := some { debugIsSecure := some true } }
        JobType.service (t "debug.service")
        (some { name := "J", ports := [1] })
        (some (buildCertificates { config := some { debugIsSecure := some true } }
          { remoteServerCertificateExists := true, remoteCertificate := "",
            localClientCertExists := true, localCertificate := "l",
            serverJob := none,
            serviceJob := some { name := "J", ports := [1] } }))).cantRun = true ∧
    (mkDebugJobItem { config := some { debugIsSecure := some true } }
        JobType.service (t "debug.service")
        (some { name := "J", ports := [1] })
        (some (buildCertificates { config := some { debugIsSecure := some true } }
          { remoteServerCertificateExists := true, remoteCertificate := "",
            localClientCertExists := true, localCertificate := "l",
            serverJob := none,
            serviceJob := some { name := "J", ports := [1] } }))).running = false ∧
    getRootItems (some { config := some { debugIsSecure := some true } })
        { remoteServerCertificateExists := true, remoteCertificate := "",
          localClientCertExists := true, localCertificate := "l",
          serverJob := none, serviceJob := some { name := "J", ports := [1] } }
      = getRootItems (some { config := some { debugIsSecure := some true } })
        { remoteServerCertificateExists := false, remoteCertificate := "",
          localClientCertExists := true, localCertificate := "l",
          serverJob := none, serviceJob := some { name := "J", ports := [1] } } :=
  empty_remote_certificate_treated_as_absent
    { config := some { debugIsSecure := some true } }
    { remoteServerCertificateExists := true, remoteCertificate := "",
      localClientCertExists := true, localCertificate := "l",
      serverJob := none, serviceJob := some { name := "J", ports := [1] } }
    rfl rfl

/-- Helper for the Trust Evaluator: the NoLocalCertificate and
CertificateMismatch outcomes only arise when secure debug is on and the
remote certificate is present (truthy), for any CertificateSet. -/
theorem classify_requires_secure_of_local_issue (c : Certificates) :
    (classify c = TrustOutcome.NoLocalCertificate ∨
     classify c = TrustOutcome.CertificateMismatch) →
    c.secureDebug = true ∧ truthy c.remoteCertificate = true := by
  intro h
  obtain ⟨sd, r, l⟩ := c
  cases hr : truthy r <;> cases sd <;> simp_all [classify]

/-- C10: every CertificateSet constructed by a refresh satisfies the
invariant that the local certificate is only ever read (present) when
the remote certificate was read (present) and secure debug is on; and
whenever a constructed set classifies as NoLocalCertificate or
CertificateMismatch, secure debug is on and the remote certificate is
present. -/
theorem constructed_certificates_local_invariant (conn : Connection)
    (s : RemoteState) :
    ((buildCertificates conn s).localCertificate.isSome = true →
      (buildCertificates conn s).remoteCertificate.isSome = true ∧
      (buildCertificates conn s).secureDebug = true) ∧
    ((classify (buildCertificates conn s) = TrustOutcome.NoLocalCertificate ∨
      classify (buildCertificates conn s) = TrustOutcome.CertificateMismatch) →
      (buildCertificates conn s).secureDebug = true ∧
      truthy (buildCertificates conn s).remoteCertificate = true) := by
  constructor
  · intro h
    unfold buildCertificates at h ⊢
    cases hx : s.remoteServerCertificateExists <;>
      cases hy : (((conn.config.bind Config.debugIsSecure).getD false)
        && s.localClientCertExists) <;>
      simp_all [Bool.and_eq_true]
  · exact classify_requires_secure_of_local_issue (buildCertificates conn s)

theorem constructed_certificates_local_invariant_witness :
    ((buildCertificates { config := some { debugIsSecure := some true } }
        { remoteServerCertificateExists := true, remoteCertificate := "r",
          localClientCertExists := true, localCertificate := "l",
          serverJob := none, serviceJob := none }).remoteCertificate.isSome = true ∧
     (buildCertificates { config := some { debugIsSecure := some true } }
        { remoteServerCertificateExists := true, remoteCertificate := "r",
          localClientCertExists := true, localCertificate := "l",
          serverJob := none, serviceJob := none }).secureDebug = true) ∧
    ((buildCertificates { config := some { debugIsSecure := some true } }
        { remoteServerCertificateExists := true, remoteCertificate := "r",
          localClientCertExists := false, localCertificate := "",
          serverJob := none, serviceJob := none }).secureDebug = true ∧
     truthy (buildCertificates { config := some { debugIsSecure := some true } }
        { remoteServerCertificateExists := true, remoteCertificate := "r",
          localClientCertExists := false, localCertificate := "",
          serverJob := none, serviceJob := none }).remoteCertificate = true) :=
  ⟨(constructed_certificates_local_invariant
      { config := some { debugIsSecure := some true } }
      { remoteServerCertificateExists := true, remoteCertificate := "r",
        localClientCertExists := true, localCertificate := "l",
        serverJob := none, serviceJob := none }).1 (by decide),
   (constructed_certificates_local_invariant
      { config := some { debugIsSecure := some true } }
      { remoteServerCertificateExists := true, remoteCertificate := "r",
        localClientCertExists := false, localCertificate := "",
        serverJob := none, serviceJob := none }).2 (Or.inl (by decide))⟩

end DebugView
